import Mathlib

/-!
Shallow embedding of the coordination core of
`src/Camera_Presets_On_Homescreen.js` (the "Camera Presets on Home Screen"
RoomOS macro, version 1-0-2), together with theorems settling the
specification claims about it.

Modelling conventions:
* JavaScript strings are modelled as `List Char`; `cs` turns a Lean string
  literal into one.
* The values the macro stores in its parsed key/value objects are modelled by
  `JSVal` (string, integral number, or `undefined`); object literals by
  insertion-ordered association lists (`JSObj`).
* Time is modelled in milliseconds as `Nat`; a pending `setTimeout` is an
  `Option Nat` holding its delay (or expiry instant for the settle monitor).
* Hardware and UI commands issued by a handler are collected in a `List Cmd`
  trace, in issue order.  Calls that can reject are governed by `Env` flags.
-/

/-- Character list of a string literal (JavaScript strings are `List Char`
here). -/
def cs (s : String) : List Char := s.toList

/-- A JavaScript value as stored in the macro's parsed key/value objects: a
string, an exactly-modelled integral number, `undefined`, or `numOther` — a
number obtained by coercing a numeric string outside the exactly-modelled
range (signed, whitespace-padded, fractional, exponent or radix-prefixed
forms, and digit strings at or above `2^53`).  The IEEE-double value and
decimal printing of `numOther` are not modelled; `canonicalVal` below
excludes such values and no theorem inspects that arm. -/
inductive JSVal where
  | str (s : List Char)
  | num (i : Int)
  | numOther
  | undefined
deriving DecidableEq

/-- A JavaScript object literal with string keys, as an insertion-ordered
association list. -/
abbrev JSObj := List (List Char × JSVal)

/-- JavaScript property write `o[k] = v`: overwrite in place if the key is
present, otherwise append. -/
def objSet (o : JSObj) (k : List Char) (v : JSVal) : JSObj :=
  if (o.find? (fun p => p.1 == k)).isSome then
    o.map (fun p => if p.1 == k then (k, v) else p)
  else o ++ [(k, v)]

/-- JavaScript property read `o[k]`: the stored value, or `undefined` when the
key is absent. -/
def objGet (o : JSObj) (k : List Char) : JSVal :=
  match o.find? (fun p => p.1 == k) with
  | some p => p.2
  | none => .undefined

/-- `String.prototype.split` on a one-character separator, as used by
`parseKeyValuePairs` (`data.split('~')` and `element.split(':')`, lines
169/172).  Always returns a nonempty list of separator-free segments;
`split` of the empty string is `[""]`. -/
def splitOnChar (c : Char) : List Char → List (List Char)
  | [] => [[]]
  | x :: xs =>
    if x = c then [] :: splitOnChar c xs
    else
      match splitOnChar c xs with
      | [] => [[x]]
      | seg :: rest => (x :: seg) :: rest

/-- The whitespace characters stripped by JavaScript's `ToNumber` on strings
(`StrWhiteSpace`): ASCII whitespace, no-break space, BOM and the two line
separators.  (The remaining Unicode `Space_Separator` code points are
omitted.) -/
def jsWhitespaceChar (ch : Char) : Bool :=
  ch == ' ' || ch == '\t' || ch == '\n' || ch == '\r' || ch == '\x0b' || ch == '\x0c' ||
    ch == '\u00A0' || ch == '\uFEFF' || ch == '\u2028' || ch == '\u2029'

/-- Strip leading and trailing `ToNumber` whitespace. -/
def trimJsWs (v : List Char) : List Char :=
  ((v.dropWhile jsWhitespaceChar).reverse.dropWhile jsWhitespaceChar).reverse

/-- A hexadecimal digit. -/
def isHexDigitCh (ch : Char) : Bool :=
  ch.isDigit || decide ('a' ≤ ch ∧ ch ≤ 'f') || decide ('A' ≤ ch ∧ ch ≤ 'F')

/-- An octal digit. -/
def isOctDigitCh (ch : Char) : Bool := ch.isDigit && decide (ch ≤ '7')

/-- `DecimalDigits`: one or more decimal digits. -/
def decDigitsOnly (l : List Char) : Bool := !l.isEmpty && l.all (fun ch => ch.isDigit)

/-- `ExponentPart`: `e` or `E`, an optional sign, then decimal digits. -/
def jsExponentPart (l : List Char) : Bool :=
  match l with
  | e :: rest =>
    (e == 'e' || e == 'E') &&
      (match rest with
       | s :: rest2 =>
         if s == '+' || s == '-' then decDigitsOnly rest2 else decDigitsOnly rest
       | [] => false)
  | [] => false

/-- `StrUnsignedDecimalLiteral`: `Infinity`, decimal digits with optional
fraction and optional exponent, or a bare fraction with optional exponent. -/
def jsUnsignedDecimal (l : List Char) : Bool :=
  if l == cs "Infinity" then true
  else
    let sp := l.span (fun ch => ch.isDigit)
    match sp.2 with
    | [] => !sp.1.isEmpty
    | '.' :: rest2 =>
      let sp2 := rest2.span (fun ch => ch.isDigit)
      if sp.1.isEmpty && sp2.1.isEmpty then false
      else
        match sp2.2 with
        | [] => true
        | rest3 => jsExponentPart rest3
    | rest => !sp.1.isEmpty && jsExponentPart rest

/-- `NonDecimalIntegerLiteral`: `0x`/`0X` hex, `0o`/`0O` octal or `0b`/`0B`
binary digits (no sign allowed). -/
def jsNonDecimal (l : List Char) : Bool :=
  match l with
  | '0' :: x :: rest =>
    ((x == 'x' || x == 'X') && rest.all isHexDigitCh && !rest.isEmpty) ||
    ((x == 'o' || x == 'O') && rest.all isOctDigitCh && !rest.isEmpty) ||
    ((x == 'b' || x == 'B') && rest.all (fun ch => ch == '0' || ch == '1') && !rest.isEmpty)
  | _ => false

/-- Recognition half of the JavaScript `isNaN(value)` test of
`parseKeyValuePairs` (line 173): `jsNumeric v = true` iff `ToNumber(v)` is
not `NaN`, i.e. iff `v` trims to the empty string or to an ECMA-262
`StrNumericLiteral`: an optionally signed decimal numeral with optional
fraction and exponent, an optionally signed `Infinity`, or an unsigned
hex/octal/binary literal.  Examples: `"007"`, `"1e3"`, `"+2"`, `" 2"`,
`"0x1A"`, `""` are numeric; `"Speaker"`, `"Room"`, `"NaN"`, `"2 3"` are
not. -/
def jsNumeric (v : List Char) : Bool :=
  let t := trimJsWs v
  t.isEmpty || jsNonDecimal t ||
    (match t with
     | s :: rest => if s == '+' || s == '-' then jsUnsignedDecimal rest else jsUnsignedDecimal t
     | [] => false)

/-- Numeric value of an all-digit string. -/
def digitsToNat (v : List Char) : Nat :=
  v.foldl (fun a ch => a * 10 + (ch.toNat - Char.toNat '0')) 0

/-- The digit strings whose coerced JavaScript number is modelled exactly:
plain decimal digits with value below `2^53`, where the IEEE double is exact
and `String(Number(v))` is a plain decimal numeral. -/
def jsSafeDigits (v : List Char) : Bool :=
  !v.isEmpty && v.all (fun ch => ch.isDigit) && decide (digitsToNat v < 2 ^ 53)

/-- The value stored by `parseKeyValuePairs` for a present value string:
`response[key] = isNaN(value) ? value : Number(value)` (line 173).  Strings
that `ToNumber` sends to `NaN` are kept as strings; the empty string is the
number `0`; exactly-modelled digit strings become their integer; every other
numeric string becomes the unmodelled number `numOther`. -/
def jsCoerce (v : List Char) : JSVal :=
  if v.isEmpty then .num 0
  else if jsNumeric v = false then .str v
  else if jsSafeDigits v then .num (digitsToNat v)
  else .numOther

/-- JavaScript template-literal stringification of a stored value, as used by
the widget-value re-encoding (lines 551/554).  The printing of `numOther`
values is not modelled (placeholder `[]`); `canonicalVal` excludes them and
no theorem below depends on that arm. -/
def jsValToChars : JSVal → List Char
  | .str s => s
  | .num i => (toString i).toList
  | .numOther => []
  | .undefined => cs "undefined"

/-- One `~`-free segment admits a match of the well-formedness regex
`(?:([^~:]+):([^~:]+))(?:~|$)+` (line 161) iff its colon-split field list has
at least two fields and the last two are both nonempty: a match must end at a
`~` or at the end of the input, and neither capture may contain `~` or `:`,
so the second capture is exactly a nonempty final field and the first a
nonempty run ending the second-to-last field. -/
def regexTestSeg (seg : List Char) : Bool :=
  match (splitOnChar ':' seg).reverse with
  | y :: x :: _ => !y.isEmpty && !x.isEmpty
  | _ => false

/-- `regex.test(data)` (line 163): some position of `data` matches, i.e. some
`~`-segment admits a match.  The regex object is freshly constructed on every
call, so the global flag carries no state between calls. -/
def regexTest (data : List Char) : Bool := (splitOnChar '~' data).any regexTestSeg

/-- The object `{ "Type": 'Error' }` returned for malformed input (line 165). -/
def errorObj : JSObj := [(cs "Type", .str (cs "Error"))]

/-- `parseKeyValuePairs` (lines 160-177): return `{Type: 'Error'}` when the
well-formedness regex finds no match anywhere; otherwise split on `~`, split
each segment on `:`, keep the first two parts as key and value
(`const [key, value] = element.split(':')` drops any further parts and leaves
`value` `undefined` when the segment has no colon), coercing numeric value
strings to numbers. -/
def parseKeyValuePairs (data : List Char) : JSObj :=
  if !regexTest data then errorObj
  else
    (splitOnChar '~' data).foldl (fun response seg =>
      match splitOnChar ':' seg with
      | [] => response
      | [k] => objSet response k .undefined
      | k :: v :: _ => objSet response k (jsCoerce v)) []

/-- Re-encoding of the remembered selection performed by the `Manual` branch of
the widget handler (lines 548-556): `value` starts as the empty string and is
assigned only when `lastPresetSelection.Type` is the string `'Automatic'` or
`'Preset'`. -/
def encodeLastSelection (sel : JSObj) : List Char :=
  match objGet sel (cs "Type") with
  | .str t =>
    if t = cs "Automatic" then
      cs "Type:Automatic~Feature:" ++ jsValToChars (objGet sel (cs "Feature"))
    else if t = cs "Preset" then
      cs "Type:Preset~CameraId:" ++ jsValToChars (objGet sel (cs "CameraId")) ++
        cs "~PresetId:" ++ jsValToChars (objGet sel (cs "PresetId")) ++
        cs "~PresetName:" ++ jsValToChars (objGet sel (cs "PresetName"))
    else []
  | _ => []

/-- `String.prototype.includes` (substring test), used by
`Value.includes('Manual')` on line 514. -/
def containsSub (pat l : List Char) : Bool := l.tails.any (fun t => pat.isPrefixOf t)

/-! ## Settle monitor (`monitorCameraStoppedPosition`, lines 260-292)

The telemetry stream for the monitored camera is abstracted as
`f : Nat → Bool`: `f t = true` iff a position tick with some non-zero
component (`Pan`, `Tilt` or `Zoom`) is delivered at millisecond `t`.
All-zero ticks return early in the handler (line 277-279), so they are
indistinguishable from the absence of a tick and need no separate marker.

The run is simulated millisecond by millisecond.  At each instant the
timers whose expiry has arrived fire first (for equal expiries the failsafe
timer fires first, having been installed first), then the tick for that
instant, if any, is delivered.  The simulation stops when `resolve` is
called, which happens in exactly two places of the source:
* the failsafe timeout (expiry 2500): clears the idle timer and resolves
  `Monitor Timed Out` — it does **not** tear down the telemetry
  subscription;
* the idle timeout (rearmed to `t + 250` by every non-zero tick at `t`):
  clears the failsafe timer, unsubscribes, and resolves
  `Camera [id] Stopped`.

The promise executor installs no other resolution path and never rejects;
totality of `settleLoop` below is the embedded form of "always resolves". -/

/-- Outcome of a settle-monitor run: the resolution strings
`Monitor Timed Out` / `Camera [id] Stopped` abstracted to a two-valued
type. -/
inductive SettleOutcome where
  | timedOut
  | stopped
deriving DecidableEq

/-- Timer and subscription state of one settle-monitor run at resolution
time: the pending idle-timer expiry (`debounce.run`), whether the failsafe
timer is still armed, and whether the telemetry subscription is still
installed. -/
structure SettleState where
  debounce : Option Nat
  failsafePending : Bool
  subscribed : Bool
deriving DecidableEq

/-- Result of a settle-monitor run: resolution instant, outcome, and the
timer/subscription state at the moment `resolve` is called. -/
structure SettleResult where
  time : Nat
  outcome : SettleOutcome
  final : SettleState
deriving DecidableEq

/-- `failsafeDebounceTime_for_MainSourceSetOnCameraRampStop` (line 127). -/
def failsafeDebounceTime : Nat := 2500

/-- The generic debounce length (line 267). -/
def debounceLength : Nat := 250

/-- One run of the settle monitor from instant `t` with pending idle-timer
expiry `deb`.  The fuel argument only bounds the recursion; from the entry
point `monitorCameraStoppedPosition` the fuel never runs out because the
failsafe timer fires at instant 2500 (proved in `settleLoop_cases`). -/
def settleLoop (f : Nat → Bool) : Nat → Nat → Option Nat → SettleResult
  | 0, t, deb => ⟨t, .timedOut, ⟨deb, true, true⟩⟩
  | fuel + 1, t, deb =>
    if t = failsafeDebounceTime then
      ⟨t, .timedOut, ⟨none, false, true⟩⟩
    else if deb = some t then
      ⟨t, .stopped, ⟨none, false, false⟩⟩
    else
      settleLoop f fuel (t + 1) (if f t then some (t + debounceLength) else deb)

/-- `monitorCameraStoppedPosition` (lines 260-292) over the abstracted
telemetry stream `f`. -/
def monitorCameraStoppedPosition (f : Nat → Bool) : SettleResult :=
  settleLoop f (failsafeDebounceTime + 1) 0 none

/-! ## Handler state machine

The mutable module state touched by the subscription handlers and command
sequencers, the trace of issued hardware/UI commands, and the environment
flags governing which awaited calls reject. -/

/-- A hardware or UI command issued by the macro, in issue order. -/
inductive Cmd where
  | speakerTrackDeactivate
  | speakerTrackActivate
  | framesDeactivate
  | framesActivate
  | presenterTrackSet (mode : List Char)
  | presetActivate (presetId : JSVal)
  | setMainVideoSource (connectorId : JSVal)
  | widgetSetValue (value : List Char)
  | widgetUnsetValue
  | promptDisplay
deriving DecidableEq

/-- The module-level mutable state of the macro that the modelled handlers
touch: the Suppression Gate flag `presetPositioningBypass` (line 135), the
pending gate-closing timeout `presetPositioningBypassHandler` (line 141,
`none` = no close pending, `some d` = close scheduled after delay `d`),
`lastPresetSelection` (line 146, initially the empty string, which behaves
like an object with no properties and is modelled as `[]`), and the current
value of the `camPresets~PresetList~Presets` widget (`none` = unset). -/
structure MacroState where
  presetPositioningBypass : Bool
  closeTimerDelay : Option Nat
  lastPresetSelection : JSObj
  widget : Option (List Char)
deriving DecidableEq

/-- Which awaited external calls reject in a given run.  Rejections of the
three best-effort tracking deactivations at the top of the sequencers are
caught and only debug-logged (lines 218-220, 307-309) without altering
control flow or the trace, so they need no flag. -/
structure Env where
  trackingCmdFails : Bool
  setValueFails : Bool
  setMainSourceFails : Bool
  presetActivateFails : Bool
deriving DecidableEq

/-- Completion status of an `async` call: it either returns a value or
throws/rejects (the macro attaches no information we need to the thrown
error). -/
inductive CallResult (α : Type) where
  | thrown
  | ok (value : α)
deriving DecidableEq

/-- The object `{ "Type": "Automatic", "Feature": "Manual" }` (line 600). -/
def manualObj : JSObj :=
  [(cs "Type", .str (cs "Automatic")), (cs "Feature", .str (cs "Manual"))]

/-- `activateCameraPreset` (lines 215-245): clear any pending gate-closing
timeout and set the gate; issue the three best-effort deactivations; throw
when `CameraId` or `PresetId` is loosely equal to `undefined` (line 222-225);
otherwise fire-and-forget the preset activation, await the settle monitor
(the await only delays and logs — it issues no command and does not touch
the gate, and it always resolves, see `monitorCameraStoppedPosition`), await
the main-source switch (whose rejection propagates, line 238), and only then
schedule the gate to close after `failsafe + 500` ms (line 242-244).
Returns the thrown/rejected-or-ok status, the final state, and the command
trace. -/
def activateCameraPreset (presetInfo : JSObj) (env : Env) (st : MacroState) :
    CallResult Unit × MacroState × List Cmd :=
  let st1 : MacroState := { st with presetPositioningBypass := true, closeTimerDelay := none }
  let pre : List Cmd := [.speakerTrackDeactivate, .framesDeactivate, .presenterTrackSet (cs "Off")]
  if objGet presetInfo (cs "CameraId") = .undefined ∨ objGet presetInfo (cs "PresetId") = .undefined then
    (.thrown, st1, pre)
  else
    let cmds := pre ++ [.presetActivate (objGet presetInfo (cs "PresetId")),
      .setMainVideoSource (objGet presetInfo (cs "CameraId"))]
    if env.setMainSourceFails then (.thrown, st1, cmds)
    else (.ok (), { st1 with closeTimerDelay := some (failsafeDebounceTime + 500) }, cmds)

/-- A preset record as returned by `xCommand Camera Preset List`; the default
flag is the string-valued `DefaultPosition` field tested with
`.toLowerCase() == 'true'` (line 316). -/
structure PresetRecord where
  CameraId : Int
  PresetId : Int
  Name : List Char
  DefaultPosition : List Char
deriving DecidableEq

/-- The default-preset test of line 316. -/
def isDefaultRecord (r : PresetRecord) : Bool :=
  r.DefaultPosition.map Char.toLower == cs "true"

/-- `activateDefaultCameraPreset` (lines 303-343): clear any pending
gate-closing timeout and set the gate; issue the three best-effort
deactivations; refresh the catalog; scan for the first record whose
`DefaultPosition` lower-cases to `"true"` and, if found, await its
activation, the settle monitor and the main-source switch; warn when no
default exists; finally schedule the gate to close after `failsafe + 100` ms
(lines 340-342).  Returns `ok found?` (with `found? = false` standing for
the logged `NoDefaultPreset` warning) or `error` when an awaited activation
or source switch rejects (which skips the closure scheduling), plus the
final state and command trace. -/
def activateDefaultCameraPreset (catalog : List PresetRecord) (env : Env) (st : MacroState) :
    CallResult Bool × MacroState × List Cmd :=
  let st1 : MacroState := { st with presetPositioningBypass := true, closeTimerDelay := none }
  let pre : List Cmd := [.speakerTrackDeactivate, .framesDeactivate, .presenterTrackSet (cs "Off")]
  match catalog.find? isDefaultRecord with
  | none =>
    (.ok false, { st1 with closeTimerDelay := some (failsafeDebounceTime + 100) }, pre)
  | some r =>
    if env.presetActivateFails then
      (.thrown, st1, pre ++ [.presetActivate (.num r.PresetId)])
    else
      let cmds := pre ++ [.presetActivate (.num r.PresetId), .setMainVideoSource (.num r.CameraId)]
      if env.setMainSourceFails then (.thrown, st1, cmds)
      else (.ok true, { st1 with closeTimerDelay := some (failsafeDebounceTime + 100) }, cmds)

/-- The `Subscribe.CameraPosition` handler (lines 596-608): when the
Suppression Gate is inactive and some component of the tick is truthy
(non-zero), record the Manual selection and push it to the widget; a
rejected `SetValue` is recovered by `UnsetValue` (lines 601-604).  All-zero
ticks, and every tick while the gate is active, do nothing. -/
def onCameraPosition (pan tilt zoom : Int) (env : Env) (st : MacroState) :
    MacroState × List Cmd :=
  if st.presetPositioningBypass then (st, [])
  else if pan ≠ 0 ∨ tilt ≠ 0 ∨ zoom ≠ 0 then
    let st1 : MacroState := { st with lastPresetSelection := manualObj }
    if env.setValueFails then
      ({ st1 with widget := none },
        [.widgetSetValue (cs "Type:Automatic~Feature:Manual"), .widgetUnsetValue])
    else
      ({ st1 with widget := some (cs "Type:Automatic~Feature:Manual") },
        [.widgetSetValue (cs "Type:Automatic~Feature:Manual")])
  else (st, [])

/-- A sequence of raw camera-movement ticks delivered to
`Subscribe.CameraPosition`, with the issued commands concatenated in
delivery order. -/
def runCameraPositionEvents (evs : List (Int × Int × Int)) (env : Env) (st : MacroState) :
    MacroState × List Cmd :=
  match evs with
  | [] => (st, [])
  | e :: rest =>
    let r1 := onCameraPosition e.1 e.2.1 e.2.2 env st
    let r2 := runCameraPositionEvents rest env r1.1
    (r2.1, r1.2 ++ r2.2)

/-- The `Subscribe.CameraPresetActivated` handler (lines 580-589): open the
gate, look up the activated preset's name (`Camera Preset Show`, a query that
mutates nothing — its result is the `presetName` argument), push the Preset
selection to the widget, and schedule gate closure after `failsafe + 500` ms.
A rejected `SetValue` is only debug-logged (line 585): no `UnsetValue` is
issued and the widget keeps its previous value. -/
def onCameraPresetActivated (cameraId presetId presetName : List Char) (env : Env)
    (st : MacroState) : MacroState × List Cmd :=
  let st1 : MacroState := { st with presetPositioningBypass := true, closeTimerDelay := none }
  let v := cs "Type:Preset~CameraId:" ++ cameraId ++ cs "~PresetId:" ++ presetId ++
    cs "~PresetName:" ++ presetName
  if env.setValueFails then
    ({ st1 with closeTimerDelay := some (failsafeDebounceTime + 500) }, [.widgetSetValue v])
  else
    ({ st1 with widget := some v, closeTimerDelay := some (failsafeDebounceTime + 500) },
      [.widgetSetValue v])

/-- The tracking-status handlers installed by `init` (lines 656-698): on an
engagement event (`ev.toLowerCase()` equal to `'follow'` for Presenter,
`'active'` for Speaker and Frames) open the gate, push
`Type:Automatic~Feature:<feature>` to the widget, and schedule gate closure
after `failsafe + 500` ms.  A rejected `SetValue` is only debug-logged
(lines 663/677/691): no `UnsetValue` is issued.  Non-engagement events do
nothing. -/
def onTrackingStatus (feature ev engaged : List Char) (env : Env) (st : MacroState) :
    MacroState × List Cmd :=
  if ev.map Char.toLower = engaged then
    let st1 : MacroState := { st with presetPositioningBypass := true, closeTimerDelay := none }
    let v := cs "Type:Automatic~Feature:" ++ feature
    if env.setValueFails then
      ({ st1 with closeTimerDelay := some (failsafeDebounceTime + 500) }, [.widgetSetValue v])
    else
      ({ st1 with widget := some v, closeTimerDelay := some (failsafeDebounceTime + 500) },
        [.widgetSetValue v])
  else (st, [])

/-- The `Subscribe.WidgetAction` handler body for a `released` action on the
`camPresets~PresetList~Presets` widget (lines 511-578):
1. parse the payload;
2. unless the raw payload contains the substring `'Manual'`, overwrite
   `lastPresetSelection` with the parsed object (lines 514-516) — this
   happens before the dispatch, for every parse result including
   `{Type: 'Error'}`;
3. dispatch on the parsed `Type`:
   * `'Automatic'`: open the gate, run the feature triple inside
     `try`/`catch` (`catch` issues `UnsetValue`, lines 563-566); the
     `Manual` feature instead displays a prompt and re-pushes the encoding
     of the remembered selection, recovering a rejected `SetValue` with
     `UnsetValue` (lines 541-561); finally schedule gate closure after
     `failsafe + 100` ms on every path of this case (lines 567-569);
   * `'Preset'`: delegate to `activateCameraPreset` (its rejection is
     unhandled and simply ends the handler, line 572);
   * `'Error'` and anything else: nothing.
The `trackingCmdFails` flag makes the first awaited command of the selected
feature triple reject, triggering the `catch`. -/
def onWidgetRelease (value : List Char) (env : Env) (st : MacroState) :
    MacroState × List Cmd :=
  let data := parseKeyValuePairs value
  let st1 : MacroState :=
    if containsSub (cs "Manual") value then st
    else { st with lastPresetSelection := data }
  match objGet data (cs "Type") with
  | .str t =>
    if t = cs "Automatic" then
      let st2 : MacroState := { st1 with presetPositioningBypass := true, closeTimerDelay := none }
      let inner : MacroState × List Cmd :=
        match objGet data (cs "Feature") with
        | .str ft =>
          if ft = cs "Presenter" then
            if env.trackingCmdFails then
              ({ st2 with widget := none },
                [.presenterTrackSet (cs "Follow"), .widgetUnsetValue])
            else
              (st2, [.presenterTrackSet (cs "Follow"), .speakerTrackDeactivate, .framesDeactivate])
          else if ft = cs "Speaker" then
            if env.trackingCmdFails then
              ({ st2 with widget := none },
                [.presenterTrackSet (cs "Off"), .widgetUnsetValue])
            else
              (st2, [.presenterTrackSet (cs "Off"), .speakerTrackActivate, .framesDeactivate])
          else if ft = cs "Frames" then
            if env.trackingCmdFails then
              ({ st2 with widget := none },
                [.presenterTrackSet (cs "Off"), .widgetUnsetValue])
            else
              (st2, [.presenterTrackSet (cs "Off"), .speakerTrackActivate, .framesActivate])
          else if ft = cs "Manual" then
            let v := encodeLastSelection st2.lastPresetSelection
            if env.setValueFails then
              ({ st2 with widget := none },
                [.promptDisplay, .widgetSetValue v, .widgetUnsetValue])
            else
              ({ st2 with widget := some v }, [.promptDisplay, .widgetSetValue v])
          else (st2, [])
        | _ => (st2, [])
      ({ inner.1 with closeTimerDelay := some (failsafeDebounceTime + 100) }, inner.2)
    else if t = cs "Preset" then
      let r := activateCameraPreset data env st1
      (r.2.1, r.2.2)
    else (st1, [])
  | _ => (st1, [])

/-! ## Selection wire format (for the round-trip claim)

The two well-formed selection encodings produced and consumed by the macro
(widget `<Key>` values built on lines 366/376/384/392/409 and re-encoded on
lines 548-556). -/

/-- The preset wire form `Type:Preset~CameraId:c~PresetId:p~PresetName:n`. -/
def presetStr (c p n : List Char) : List Char :=
  cs "Type:Preset~CameraId:" ++ c ++ cs "~PresetId:" ++ p ++ cs "~PresetName:" ++ n

/-- The tracking wire form `Type:Automatic~Feature:f`. -/
def autoStr (f : List Char) : List Char := cs "Type:Automatic~Feature:" ++ f

/-- A value string is canonical when it is nonempty, free of the two
separator characters, either not numeric under JavaScript's `ToNumber`
(so the parser keeps it as a string) or an exactly-modelled plain digit
numeral, and reproduced exactly by stringifying its parsed value
(`jsValToChars (jsCoerce v) = v`).  This excludes every value whose
coercion breaks the round trip: digit strings with leading zeros such as
`"007"` (re-encode as `"7"`), and all other `ToNumber`-coercible forms such
as `"1e3"`, `"+2"`, `" 2"` or `"0x1A"`, whose coerced number never prints
back as the source string or lies outside the exactly-modelled range. -/
def canonicalVal (v : List Char) : Prop :=
  v ≠ [] ∧ (∀ ch ∈ v, ch ≠ '~' ∧ ch ≠ ':') ∧
    (jsNumeric v = false ∨ jsSafeDigits v = true) ∧
    jsValToChars (jsCoerce v) = v

instance (v : List Char) : Decidable (canonicalVal v) := by
  unfold canonicalVal
  infer_instance

/-! ## Lemmas about the settle monitor -/

/-- Every settle-monitor run started with full fuel resolves in one of exactly
two ways: at the failsafe expiry with `timedOut` (idle timer cleared,
subscription still installed), or strictly earlier with `stopped` (both
timers cleared, subscription torn down). -/
theorem settleLoop_cases (f : Nat → Bool) :
    ∀ fuel t deb, t + fuel = failsafeDebounceTime + 1 → t ≤ failsafeDebounceTime →
      ((settleLoop f fuel t deb).outcome = .timedOut ∧
        (settleLoop f fuel t deb).time = failsafeDebounceTime ∧
        (settleLoop f fuel t deb).final = ⟨none, false, true⟩) ∨
      ((settleLoop f fuel t deb).outcome = .stopped ∧
        (settleLoop f fuel t deb).time < failsafeDebounceTime ∧
        (settleLoop f fuel t deb).final = ⟨none, false, false⟩) := by
  intro fuel
  induction fuel with
  | zero => intro t deb h1 h2; omega
  | succ n ih =>
    intro t deb h1 h2
    by_cases ht : t = failsafeDebounceTime
    · left; simp [settleLoop, ht]
    · by_cases hd : deb = some t
      · right
        have he : settleLoop f (n + 1) t deb = ⟨t, .stopped, ⟨none, false, false⟩⟩ := by
          simp [settleLoop, ht, hd]
        rw [he]
        refine ⟨rfl, ?_, rfl⟩
        show t < failsafeDebounceTime
        omega
      · have := ih (t + 1) (if f t then some (t + debounceLength) else deb) (by omega) (by omega)
        simpa [settleLoop, ht, hd] using this

/-- With a telemetry stream that never reports non-zero movement, the run
reaches the failsafe expiry with the idle timer never armed. -/
theorem settleLoop_allZero (f : Nat → Bool) (hf : ∀ t, f t = false) :
    ∀ fuel t, t + fuel = failsafeDebounceTime + 1 → t ≤ failsafeDebounceTime →
      settleLoop f fuel t none = ⟨failsafeDebounceTime, .timedOut, ⟨none, false, true⟩⟩ := by
  intro fuel
  induction fuel with
  | zero => intro t h1 h2; omega
  | succ n ih =>
    intro t h1 h2
    by_cases ht : t = failsafeDebounceTime
    · simp [settleLoop, ht]
    · have := ih (t + 1) (by omega) (by omega)
      simpa [settleLoop, ht, hf t] using this

/-- After the last movement tick at `t₀`, a pending idle timer with expiry at
most `t₀ + debounceLength` fires before the failsafe and resolves `stopped`. -/
theorem settleLoop_gapStop (f : Nat → Bool) (t₀ : Nat)
    (hgap : ∀ s, t₀ < s → s < t₀ + debounceLength → f s = false)
    (hlt : t₀ + debounceLength < failsafeDebounceTime) :
    ∀ fuel t d, t + fuel = failsafeDebounceTime + 1 → t₀ < t → t ≤ d →
      d ≤ t₀ + debounceLength →
      (settleLoop f fuel t (some d)).time ≤ t₀ + debounceLength ∧
      (settleLoop f fuel t (some d)).outcome = .stopped := by
  intro fuel
  induction fuel with
  | zero => intro t d h1 h2 h3 h4; omega
  | succ n ih =>
    intro t d h1 h2 h3 h4
    have ht : t ≠ failsafeDebounceTime := by omega
    by_cases hd : d = t
    · have he : settleLoop f (n + 1) t (some d) = ⟨t, .stopped, ⟨none, false, false⟩⟩ := by
        simp [settleLoop, ht, hd]
      rw [he]
      refine ⟨?_, rfl⟩
      show t ≤ t₀ + debounceLength
      omega
    · have hft : f t = false := hgap t h2 (by omega)
      have := ih (t + 1) d (by omega) (by omega) (by omega) h4
      simpa [settleLoop, ht, hd, hft] using this

/-- A run that has not yet passed the instant `t₀` of a movement tick that is
followed by `debounceLength` ms of silence resolves `stopped` no later than
`t₀ + debounceLength`, provided any already-pending idle timer also expires
by then. -/
theorem settleLoop_gapStart (f : Nat → Bool) (t₀ : Nat)
    (hmov : f t₀ = true)
    (hgap : ∀ s, t₀ < s → s < t₀ + debounceLength → f s = false)
    (hlt : t₀ + debounceLength < failsafeDebounceTime) :
    ∀ fuel t deb, t + fuel = failsafeDebounceTime + 1 → t ≤ t₀ →
      (∀ d, deb = some d → t ≤ d ∧ d ≤ t₀ + debounceLength) →
      (settleLoop f fuel t deb).time ≤ t₀ + debounceLength ∧
      (settleLoop f fuel t deb).outcome = .stopped := by
  intro fuel
  induction fuel with
  | zero => intro t deb h1 h2 _; omega
  | succ n ih =>
    intro t deb h1 h2 hdeb
    have hD : debounceLength = 250 := rfl
    have ht : t ≠ failsafeDebounceTime := by omega
    by_cases hd : deb = some t
    · have h' := hdeb t hd
      have he : settleLoop f (n + 1) t deb = ⟨t, .stopped, ⟨none, false, false⟩⟩ := by
        simp [settleLoop, ht, hd]
      rw [he]
      refine ⟨?_, rfl⟩
      show t ≤ t₀ + debounceLength
      omega
    · by_cases htt : t = t₀
      · subst htt
        have he : settleLoop f (n + 1) t deb =
            settleLoop f n (t + 1) (some (t + debounceLength)) := by
          simp [settleLoop, ht, hd, hmov]
        rw [he]
        exact settleLoop_gapStop f t hgap hlt n (t + 1) (t + debounceLength)
          (by omega) (by omega) (by omega) (by omega)
      · cases hft : f t with
        | true =>
          have := ih (t + 1) (some (t + debounceLength)) (by omega) (by omega)
            (by intro d hd'; cases hd'; exact ⟨by omega, by omega⟩)
          simpa [settleLoop, ht, hd, hft] using this
        | false =>
          have := ih (t + 1) deb (by omega) (by omega)
            (by
              intro d hd'
              have h' := hdeb d hd'
              have hne : d ≠ t := by
                intro hdt
                exact hd (by rw [hd', hdt])
              exact ⟨by omega, h'.2⟩)
          simpa [settleLoop, ht, hd, hft] using this

/-! ## Claim theorems -/

/-- C1 (the code contradicts the claim): a failing `activateCameraPreset`
call — whether the validation of `CameraId`/`PresetId` throws (lines
222-225) or the awaited `SetMainVideoSource` rejects (line 238) — returns
with the Suppression Gate set and **no** close timer scheduled: the
gate-closing `setTimeout` of lines 242-244 only runs on the full success
path, so a failed activation leaves `presetPositioningBypass = true` with
nothing pending to reset it, contrary to the claimed
"gate is still scheduled to close on the normal timer before the call
returns". -/
theorem C1_failed_activation_leaves_gate_open :
    (activateCameraPreset [(cs "PresetId", .num 5)] ⟨false, false, false, false⟩
        ⟨false, none, [], none⟩ =
      (.thrown, ⟨true, none, [], none⟩,
        [.speakerTrackDeactivate, .framesDeactivate, .presenterTrackSet (cs "Off")])) ∧
    (activateCameraPreset [(cs "CameraId", .num 2), (cs "PresetId", .num 5)]
        ⟨false, false, true, false⟩ ⟨false, none, [], none⟩ =
      (.thrown, ⟨true, none, [], none⟩,
        [.speakerTrackDeactivate, .framesDeactivate, .presenterTrackSet (cs "Off"),
          .presetActivate (.num 5), .setMainVideoSource (.num 2)])) := by
  decide

/-- C2: `AwaitSettle` (`monitorCameraStoppedPosition`) always resolves with
exactly one of the two outcomes and never rejects (the totality of the
embedding is the never-hangs/never-rejects part): with a stream that only
ever reports all-zero movement it resolves `Monitor Timed Out` exactly at
the failsafe duration (2500 ms), and with a non-zero movement tick at `t₀`
followed by 250 ms of silence completing before the failsafe elapses it
resolves `Camera Stopped` strictly before the failsafe duration. -/
theorem C2_awaitSettle_always_resolves (f : Nat → Bool) (t₀ : Nat) :
    ((∀ t, f t = false) →
      monitorCameraStoppedPosition f =
        ⟨failsafeDebounceTime, .timedOut, ⟨none, false, true⟩⟩) ∧
    (f t₀ = true →
      (∀ s, t₀ < s → s < t₀ + debounceLength → f s = false) →
      t₀ + debounceLength < failsafeDebounceTime →
      (monitorCameraStoppedPosition f).outcome = .stopped ∧
      (monitorCameraStoppedPosition f).time < failsafeDebounceTime) ∧
    ((monitorCameraStoppedPosition f).outcome = .timedOut ∨
      (monitorCameraStoppedPosition f).outcome = .stopped) := by
  refine ⟨?_, ?_, ?_⟩
  · intro hf
    unfold monitorCameraStoppedPosition
    exact settleLoop_allZero f hf (failsafeDebounceTime + 1) 0 (by omega) (by omega)
  · intro hmov hgap hlt
    have h := settleLoop_gapStart f t₀ hmov hgap hlt (failsafeDebounceTime + 1) 0 none
      (by omega) (by omega) (by intro d hd; simp at hd)
    unfold monitorCameraStoppedPosition
    exact ⟨h.2, by omega⟩
  · cases h : (monitorCameraStoppedPosition f).outcome
    · exact Or.inl rfl
    · exact Or.inr rfl

/-- Witness for `C2_awaitSettle_always_resolves` at two concrete telemetry
streams: the all-zero stream, and a stream with a single movement tick at
100 ms. -/
theorem C2_awaitSettle_always_resolves_witness :
    monitorCameraStoppedPosition (fun _ => false) =
      ⟨failsafeDebounceTime, .timedOut, ⟨none, false, true⟩⟩ ∧
    (monitorCameraStoppedPosition (fun t => t == 100)).outcome = .stopped ∧
    (monitorCameraStoppedPosition (fun t => t == 100)).time < failsafeDebounceTime := by
  refine ⟨(C2_awaitSettle_always_resolves (fun _ => false) 0).1 (fun _ => rfl), ?_⟩
  exact (C2_awaitSettle_always_resolves (fun t => t == 100) 100).2.1 (by decide)
    (by
      intro s h1 h2
      simp only [beq_eq_false_iff_ne]
      omega)
    (by decide)

/-- C4: while the Suppression Gate is active (`presetPositioningBypass =
true`), an arbitrary sequence of raw camera-movement ticks delivered to the
`Subscribe.CameraPosition` handler leaves the entire state unchanged —
in particular the recorded Selection is not set to Manual and nothing is
pushed to the UI control (the command trace is empty). -/
theorem C4_gate_suppresses_manual (evs : List (Int × Int × Int)) (env : Env) (st : MacroState)
    (h : st.presetPositioningBypass = true) :
    runCameraPositionEvents evs env st = (st, []) := by
  induction evs with
  | nil => rfl
  | cons e rest ih =>
    have h1 : onCameraPosition e.1 e.2.1 e.2.2 env st = (st, []) := by
      simp [onCameraPosition, h]
    simp [runCameraPositionEvents, h1, ih]

/-- Witness for `C4_gate_suppresses_manual` at a concrete movement sequence
delivered while the gate is active. -/
theorem C4_gate_suppresses_manual_witness :
    runCameraPositionEvents [(1, 2, 3), (0, 0, 0), (5, 0, 0)] ⟨false, false, false, false⟩
      ⟨true, none, [], none⟩ = (⟨true, none, [], none⟩, []) :=
  C4_gate_suppresses_manual _ _ _ rfl

/-- C5 counterexample: with the all-zero telemetry stream the failsafe path
resolves `Monitor Timed Out` while the telemetry subscription is still
installed (`cameraPositionSubsription()` is only called inside the idle
timer's callback, lines 284-286) — the claimed teardown-before-resolution
fails on the `TimedOut` path. -/
theorem C5_counterexample_subscription_leak :
    (monitorCameraStoppedPosition (fun _ => false)).outcome = .timedOut ∧
    (monitorCameraStoppedPosition (fun _ => false)).final.subscribed = true := by
  have h := settleLoop_allZero (fun _ => false) (fun _ => rfl) (failsafeDebounceTime + 1) 0
    (by omega) (by omega)
  unfold monitorCameraStoppedPosition
  rw [h]
  exact ⟨rfl, rfl⟩

/-- C5 (amended): whichever timer fires first cancels the other, but the
telemetry subscription is torn down before resolution only on the `Stopped`
path; on the `TimedOut` path the subscription is still installed when the
wait resolves. -/
theorem C5_settle_timer_teardown (f : Nat → Bool) :
    ((monitorCameraStoppedPosition f).outcome = .stopped →
      (monitorCameraStoppedPosition f).final = ⟨none, false, false⟩) ∧
    ((monitorCameraStoppedPosition f).outcome = .timedOut →
      (monitorCameraStoppedPosition f).final.debounce = none ∧
      (monitorCameraStoppedPosition f).final.failsafePending = false ∧
      (monitorCameraStoppedPosition f).final.subscribed = true) := by
  have h := settleLoop_cases f (failsafeDebounceTime + 1) 0 none (by omega) (by omega)
  unfold monitorCameraStoppedPosition
  rcases h with ⟨ho, _, hfin⟩ | ⟨ho, _, hfin⟩
  · refine ⟨?_, ?_⟩
    · intro hs
      rw [ho] at hs
      cases hs
    · intro _
      rw [hfin]
      exact ⟨rfl, rfl, rfl⟩
  · refine ⟨?_, ?_⟩
    · intro _
      exact hfin
    · intro hs
      rw [ho] at hs
      cases hs

set_option maxRecDepth 20000 in
/-- Witness for `C5_settle_timer_teardown` at two concrete telemetry streams,
one resolving on each path. -/
theorem C5_settle_timer_teardown_witness :
    (monitorCameraStoppedPosition (fun t => t == 100)).final = ⟨none, false, false⟩ ∧
    ((monitorCameraStoppedPosition (fun _ => false)).final.debounce = none ∧
      (monitorCameraStoppedPosition (fun _ => false)).final.failsafePending = false ∧
      (monitorCameraStoppedPosition (fun _ => false)).final.subscribed = true) :=
  ⟨(C5_settle_timer_teardown (fun t => t == 100)).1 (by decide),
    (C5_settle_timer_teardown (fun _ => false)).2 (by decide)⟩

/-- C6 counterexample: with a catalog containing no default record,
`activateDefaultCameraPreset` still issues the three best-effort
tracking-mode deactivations (lines 307-309 run before the catalog scan), so
the claimed "zero hardware mutation calls" fails. -/
theorem C6_counterexample_deactivations_issued :
    (activateDefaultCameraPreset [⟨1, 1, cs "Home", cs "False"⟩] ⟨false, false, false, false⟩
        ⟨false, none, [], none⟩).2.2 =
      [.speakerTrackDeactivate, .framesDeactivate, .presenterTrackSet (cs "Off")] ∧
    (activateDefaultCameraPreset [⟨1, 1, cs "Home", cs "False"⟩] ⟨false, false, false, false⟩
        ⟨false, none, [], none⟩).2.2 ≠ [] := by
  decide

/-- C6 (amended): over a catalog with no record whose `DefaultPosition`
lower-cases to `"true"`, `ActivateDefaultPreset` returns the
`NoDefaultPreset` outcome (`ok false`, the logged warning) and issues no
preset-activate and no source-switch command — but it does issue the three
best-effort tracking-mode deactivations first, and schedules the gate to
close on the normal timer. -/
theorem C6_no_default_no_activation (catalog : List PresetRecord) (env : Env) (st : MacroState)
    (h : ∀ r ∈ catalog, isDefaultRecord r = false) :
    activateDefaultCameraPreset catalog env st =
      (.ok false,
        { st with presetPositioningBypass := true,
                  closeTimerDelay := some (failsafeDebounceTime + 100) },
        [.speakerTrackDeactivate, .framesDeactivate, .presenterTrackSet (cs "Off")]) := by
  have hfind : catalog.find? isDefaultRecord = none := by
    rw [List.find?_eq_none]
    intro r hr
    simp [h r hr]
  simp [activateDefaultCameraPreset, hfind]

/-- Witness for `C6_no_default_no_activation` at a concrete default-free
catalog. -/
theorem C6_no_default_no_activation_witness :
    activateDefaultCameraPreset [⟨1, 1, cs "Home", cs "False"⟩, ⟨2, 2, cs "Stage", cs "no"⟩]
      ⟨false, false, false, false⟩ ⟨false, none, [], none⟩ =
      (.ok false, ⟨true, some (failsafeDebounceTime + 100), [], none⟩,
        [.speakerTrackDeactivate, .framesDeactivate, .presenterTrackSet (cs "Off")]) :=
  C6_no_default_no_activation _ _ _ (by decide)

/-- `activateCameraPreset` only touches the gate fields of the state: the
remembered selection and the widget value pass through unchanged. -/
theorem activateCameraPreset_preserves (p : JSObj) (env : Env) (st : MacroState) :
    (activateCameraPreset p env st).2.1.lastPresetSelection = st.lastPresetSelection ∧
    (activateCameraPreset p env st).2.1.widget = st.widget := by
  simp only [activateCameraPreset]
  split
  · exact ⟨rfl, rfl⟩
  · split
    · exact ⟨rfl, rfl⟩
    · exact ⟨rfl, rfl⟩

/-- C7 counterexample: on the external-preset-activation reconciliation path,
a failed `SetValue` leaves the control at its previous stale value and never
issues `UnsetValue` (the `.catch` on line 585 only logs), refuting the
claimed uniform unset-on-failure rule. -/
theorem C7_counterexample_stale_control :
    ((onCameraPresetActivated (cs "2") (cs "4") (cs "Stage") ⟨false, true, false, false⟩
        ⟨false, none, [], some (cs "stale")⟩).1.widget = some (cs "stale")) ∧
    Cmd.widgetUnsetValue ∉
      (onCameraPresetActivated (cs "2") (cs "4") (cs "Stage") ⟨false, true, false, false⟩
        ⟨false, none, [], some (cs "stale")⟩).2 := by
  decide

/-- C7 (amended): a `SetValue` failure is recovered by an explicit
`UnsetValue` on the raw-movement path and on the widget `Manual` path, but
on the external-preset-activation path and the tracking-status paths the
failure is only debug-logged: no `UnsetValue` is issued and the control
keeps its previous value. -/
theorem C7_unset_recovery_paths (env : Env) (st : MacroState)
    (cameraId presetId presetName feature ev engaged : List Char) :
    (env.setValueFails = true → st.presetPositioningBypass = false →
      (onCameraPosition 1 0 0 env st).1.widget = none ∧
      (onCameraPosition 1 0 0 env st).2 =
        [.widgetSetValue (cs "Type:Automatic~Feature:Manual"), .widgetUnsetValue]) ∧
    (env.setValueFails = true →
      (onWidgetRelease (cs "Type:Automatic~Feature:Manual") env st).1.widget = none ∧
      Cmd.widgetUnsetValue ∈
        (onWidgetRelease (cs "Type:Automatic~Feature:Manual") env st).2) ∧
    (env.setValueFails = true →
      (onCameraPresetActivated cameraId presetId presetName env st).1.widget = st.widget ∧
      Cmd.widgetUnsetValue ∉ (onCameraPresetActivated cameraId presetId presetName env st).2) ∧
    (env.setValueFails = true →
      (onTrackingStatus feature ev engaged env st).1.widget = st.widget ∧
      Cmd.widgetUnsetValue ∉ (onTrackingStatus feature ev engaged env st).2) := by
  refine ⟨?_, ?_, ?_, ?_⟩
  · intro hv hb
    simp [onCameraPosition, hb, hv, (by decide : (1 : Int) ≠ 0 ∨ (0 : Int) ≠ 0 ∨ (0 : Int) ≠ 0)]
  · intro hv
    have hp : parseKeyValuePairs (cs "Type:Automatic~Feature:Manual") =
        [(cs "Type", .str (cs "Automatic")), (cs "Feature", .str (cs "Manual"))] := by decide
    have hm : containsSub (cs "Manual") (cs "Type:Automatic~Feature:Manual") = true := by decide
    have hg1 : objGet [(cs "Type", JSVal.str (cs "Automatic")),
        (cs "Feature", JSVal.str (cs "Manual"))] (cs "Type") = .str (cs "Automatic") := by decide
    have hg2 : objGet [(cs "Type", JSVal.str (cs "Automatic")),
        (cs "Feature", JSVal.str (cs "Manual"))] (cs "Feature") = .str (cs "Manual") := by decide
    have n2 : ¬(cs "Manual" = cs "Presenter") := by decide
    have n3 : ¬(cs "Manual" = cs "Speaker") := by decide
    have n4 : ¬(cs "Manual" = cs "Frames") := by decide
    simp [onWidgetRelease, hp, hm, hg1, hg2, n2, n3, n4, hv]
  · intro hv
    simp [onCameraPresetActivated, hv]
  · intro hv
    by_cases he : ev.map Char.toLower = engaged <;> simp [onTrackingStatus, he, hv]

/-- Witness for `C7_unset_recovery_paths` at a concrete failing environment
and state. -/
theorem C7_unset_recovery_paths_witness :
    ((onCameraPosition 1 0 0 ⟨false, true, false, false⟩
        ⟨false, none, [], some (cs "old")⟩).1.widget = none ∧
      (onCameraPosition 1 0 0 ⟨false, true, false, false⟩
        ⟨false, none, [], some (cs "old")⟩).2 =
        [.widgetSetValue (cs "Type:Automatic~Feature:Manual"), .widgetUnsetValue]) ∧
    ((onWidgetRelease (cs "Type:Automatic~Feature:Manual") ⟨false, true, false, false⟩
        ⟨false, none, [], some (cs "old")⟩).1.widget = none ∧
      Cmd.widgetUnsetValue ∈
        (onWidgetRelease (cs "Type:Automatic~Feature:Manual") ⟨false, true, false, false⟩
          ⟨false, none, [], some (cs "old")⟩).2) ∧
    ((onCameraPresetActivated (cs "1") (cs "2") (cs "Desk") ⟨false, true, false, false⟩
        ⟨false, none, [], some (cs "old")⟩).1.widget = some (cs "old") ∧
      Cmd.widgetUnsetValue ∉
        (onCameraPresetActivated (cs "1") (cs "2") (cs "Desk") ⟨false, true, false, false⟩
          ⟨false, none, [], some (cs "old")⟩).2) ∧
    ((onTrackingStatus (cs "Speaker") (cs "Active") (cs "active") ⟨false, true, false, false⟩
        ⟨false, none, [], some (cs "old")⟩).1.widget = some (cs "old") ∧
      Cmd.widgetUnsetValue ∉
        (onTrackingStatus (cs "Speaker") (cs "Active") (cs "active") ⟨false, true, false, false⟩
          ⟨false, none, [], some (cs "old")⟩).2) := by
  have h := C7_unset_recovery_paths ⟨false, true, false, false⟩
    ⟨false, none, [], some (cs "old")⟩ (cs "1") (cs "2") (cs "Desk")
    (cs "Speaker") (cs "Active") (cs "active")
  exact ⟨h.1 rfl rfl, h.2.1 rfl, h.2.2.1 rfl, h.2.2.2 rfl⟩

/-- C8 counterexample: a fully unparseable payload (`"garbage"`) parses to
`{Type: 'Error'}` and issues nothing, yet the handler still overwrites the
remembered last selection with the Error object (lines 514-516 run before
the dispatch) — refuting the claimed "no internal state is mutated". -/
theorem C8_counterexample_state_mutated :
    (onWidgetRelease (cs "garbage") ⟨false, false, false, false⟩
        ⟨false, none,
          [(cs "Type", .str (cs "Preset")), (cs "CameraId", .num 2),
            (cs "PresetId", .num 3), (cs "PresetName", .str (cs "Room"))],
          none⟩).1.lastPresetSelection ≠
      [(cs "Type", .str (cs "Preset")), (cs "CameraId", .num 2),
        (cs "PresetId", .num 3), (cs "PresetName", .str (cs "Room"))] := by
  decide

/-- C8 (amended): a payload rejected by the well-formedness regex parses to
`{Type: 'Error'}` and the dispatch issues no hardware or UI command and
leaves the widget, gate and close timer untouched — but the remembered last
selection is overwritten with the Error object whenever the raw payload does
not contain the substring `'Manual'`. -/
theorem C8_malformed_payload (v : List Char) (env : Env) (st : MacroState)
    (h : regexTest v = false) :
    (onWidgetRelease v env st).2 = [] ∧
    (onWidgetRelease v env st).1.widget = st.widget ∧
    (onWidgetRelease v env st).1.presetPositioningBypass = st.presetPositioningBypass ∧
    (onWidgetRelease v env st).1.closeTimerDelay = st.closeTimerDelay ∧
    (onWidgetRelease v env st).1.lastPresetSelection =
      (if containsSub (cs "Manual") v = true then st.lastPresetSelection else errorObj) := by
  have hp : parseKeyValuePairs v = errorObj := by
    simp [parseKeyValuePairs, h]
  have hg : objGet errorObj (cs "Type") = .str (cs "Error") := by decide
  have e1 : ¬(cs "Error" = cs "Automatic") := by decide
  have e2 : ¬(cs "Error" = cs "Preset") := by decide
  by_cases hm : containsSub (cs "Manual") v = true <;>
    simp [onWidgetRelease, hp, hg, e1, e2, hm]

/-- Witness for `C8_malformed_payload` at a concrete malformed payload. -/
theorem C8_malformed_payload_witness :
    (onWidgetRelease (cs "garbage") ⟨false, false, false, false⟩
        ⟨false, none, [], some (cs "old")⟩).2 = [] ∧
    (onWidgetRelease (cs "garbage") ⟨false, false, false, false⟩
        ⟨false, none, [], some (cs "old")⟩).1.widget = some (cs "old") ∧
    (onWidgetRelease (cs "garbage") ⟨false, false, false, false⟩
        ⟨false, none, [], some (cs "old")⟩).1.presetPositioningBypass = false ∧
    (onWidgetRelease (cs "garbage") ⟨false, false, false, false⟩
        ⟨false, none, [], some (cs "old")⟩).1.closeTimerDelay = none ∧
    (onWidgetRelease (cs "garbage") ⟨false, false, false, false⟩
        ⟨false, none, [], some (cs "old")⟩).1.lastPresetSelection =
      (if containsSub (cs "Manual") (cs "garbage") = true then [] else errorObj) :=
  C8_malformed_payload (cs "garbage") ⟨false, false, false, false⟩
    ⟨false, none, [], some (cs "old")⟩ (by decide)

/-- C9 counterexample: after a raw manual movement with the gate inactive,
pressing `Manual` in the UI re-sets the control to the Manual selection
itself (the movement handler stored `{Type:'Automatic',Feature:'Manual'}` as
the remembered selection on line 600), refuting "never Manual itself". -/
theorem C9_counterexample_manual_reselected :
    Cmd.widgetSetValue (cs "Type:Automatic~Feature:Manual") ∈
      (onWidgetRelease (cs "Type:Automatic~Feature:Manual") ⟨false, false, false, false⟩
        (onCameraPosition 1 0 0 ⟨false, false, false, false⟩
          ⟨false, none, [], none⟩).1).2 := by
  decide

/-- C9 (amended): the widget handler remembers the parsed selection only when
the raw payload does not contain the substring `'Manual'`; the raw-movement
handler, however, overwrites the remembered selection with the Manual
tracking object, so a `Manual` UI selection after a manual camera movement
re-pushes the Manual encoding itself rather than a non-manual selection. -/
theorem C9_manual_memory (v : List Char) (env : Env) (st : MacroState) :
    (containsSub (cs "Manual") v = true →
      (onWidgetRelease v env st).1.lastPresetSelection = st.lastPresetSelection) ∧
    (st.presetPositioningBypass = false →
      (onCameraPosition 1 1 1 env st).1.lastPresetSelection = manualObj) ∧
    (st.lastPresetSelection = manualObj → env.setValueFails = false →
      (onWidgetRelease (cs "Type:Automatic~Feature:Manual") env st).2 =
        [.promptDisplay, .widgetSetValue (cs "Type:Automatic~Feature:Manual")]) := by
  refine ⟨?_, ?_, ?_⟩
  · intro hm
    have hpre := activateCameraPreset_preserves (parseKeyValuePairs v) env st
    simp only [onWidgetRelease, hm, if_true]
    split
    · split
      · (repeat' split) <;> rfl
      · split
        · exact hpre.1
        · rfl
    · rfl
  · intro hb
    by_cases hv : env.setValueFails <;>
      simp [onCameraPosition, hb, hv,
        (by decide : (1 : Int) ≠ 0 ∨ (1 : Int) ≠ 0 ∨ (1 : Int) ≠ 0)]
  · intro hlast hv
    have hp : parseKeyValuePairs (cs "Type:Automatic~Feature:Manual") =
        [(cs "Type", .str (cs "Automatic")), (cs "Feature", .str (cs "Manual"))] := by decide
    have hm : containsSub (cs "Manual") (cs "Type:Automatic~Feature:Manual") = true := by decide
    have hg1 : objGet [(cs "Type", JSVal.str (cs "Automatic")),
        (cs "Feature", JSVal.str (cs "Manual"))] (cs "Type") = .str (cs "Automatic") := by decide
    have hg2 : objGet [(cs "Type", JSVal.str (cs "Automatic")),
        (cs "Feature", JSVal.str (cs "Manual"))] (cs "Feature") = .str (cs "Manual") := by decide
    have n2 : ¬(cs "Manual" = cs "Presenter") := by decide
    have n3 : ¬(cs "Manual" = cs "Speaker") := by decide
    have n4 : ¬(cs "Manual" = cs "Frames") := by decide
    have henc : encodeLastSelection manualObj = cs "Type:Automatic~Feature:Manual" := by decide
    simp [onWidgetRelease, hp, hm, hg1, hg2, n2, n3, n4, hlast, henc, hv]

/-- Witness for `C9_manual_memory` at concrete payloads and states. -/
theorem C9_manual_memory_witness :
    (onWidgetRelease (cs "Type:Preset~CameraId:1~PresetId:1~PresetName:Manual Zone")
        ⟨false, false, false, false⟩ ⟨false, none, [], none⟩).1.lastPresetSelection = [] ∧
    (onCameraPosition 1 1 1 ⟨false, false, false, false⟩
        ⟨false, none, [], none⟩).1.lastPresetSelection = manualObj ∧
    (onWidgetRelease (cs "Type:Automatic~Feature:Manual") ⟨false, false, false, false⟩
        ⟨false, none, manualObj, none⟩).2 =
      [.promptDisplay, .widgetSetValue (cs "Type:Automatic~Feature:Manual")] :=
  ⟨(C9_manual_memory (cs "Type:Preset~CameraId:1~PresetId:1~PresetName:Manual Zone")
      ⟨false, false, false, false⟩ ⟨false, none, [], none⟩).1 (by decide),
    (C9_manual_memory (cs "x") ⟨false, false, false, false⟩ ⟨false, none, [], none⟩).2.1 rfl,
    (C9_manual_memory (cs "x") ⟨false, false, false, false⟩
      ⟨false, none, manualObj, none⟩).2.2 rfl rfl⟩

/-- C10: a raw camera-movement tick whose `Pan`, `Tilt` and `Zoom` are all
zero never changes the state or issues a command, whatever the gate's state;
and a tick with some non-zero component, delivered while the gate is
inactive, is treated as manual movement: it records the Manual selection and
issues a push to the UI control. -/
theorem C10_zero_tick_is_noop (env : Env) (st : MacroState) (p t z : Int) :
    onCameraPosition 0 0 0 env st = (st, []) ∧
    (st.presetPositioningBypass = false → (p ≠ 0 ∨ t ≠ 0 ∨ z ≠ 0) →
      (onCameraPosition p t z env st).1.lastPresetSelection = manualObj ∧
      (onCameraPosition p t z env st).2 ≠ []) := by
  constructor
  · by_cases h : st.presetPositioningBypass <;> simp [onCameraPosition, h]
  · intro hb hnz
    by_cases hv : env.setValueFails <;> simp [onCameraPosition, hb, hnz, hv]

/-- Witness for `C10_zero_tick_is_noop` at a concrete non-zero tick with the
gate inactive. -/
theorem C10_zero_tick_is_noop_witness :
    (onCameraPosition 1 0 0 ⟨false, false, false, false⟩
        ⟨false, none, [], none⟩).1.lastPresetSelection = manualObj ∧
    (onCameraPosition 1 0 0 ⟨false, false, false, false⟩
        ⟨false, none, [], none⟩).2 ≠ [] :=
  (C10_zero_tick_is_noop ⟨false, false, false, false⟩ ⟨false, none, [], none⟩ 1 0 0).2 rfl
    (by decide)

/-! ## Round-trip of the selection wire format -/

/-- A character absent from both parts is absent from their concatenation. -/
theorem not_mem_append_chars (a : Char) (l₁ l₂ : List Char) (h₁ : a ∉ l₁) (h₂ : a ∉ l₂) :
    a ∉ l₁ ++ l₂ := by
  intro h
  rcases List.mem_append.mp h with h' | h'
  · exact h₁ h'
  · exact h₂ h'

/-- Splitting a separator-free string yields the single segment. -/
theorem splitOnChar_of_not_mem (c : Char) (l : List Char) (h : c ∉ l) :
    splitOnChar c l = [l] := by
  induction l with
  | nil => rfl
  | cons x xs ih =>
    have hx : ¬(x = c) := by
      intro he
      subst he
      exact h (List.mem_cons_self x xs)
    have hxs : c ∉ xs := fun hm => h (List.mem_cons_of_mem _ hm)
    simp [splitOnChar, hx, ih hxs]

/-- Splitting strips the first separator after a separator-free prefix. -/
theorem splitOnChar_append (c : Char) (l₁ l₂ : List Char) (h : c ∉ l₁) :
    splitOnChar c (l₁ ++ c :: l₂) = l₁ :: splitOnChar c l₂ := by
  induction l₁ with
  | nil => simp [splitOnChar]
  | cons x xs ih =>
    have hx : ¬(x = c) := by
      intro he
      subst he
      exact h (List.mem_cons_self x xs)
    have hxs : c ∉ xs := fun hm => h (List.mem_cons_of_mem _ hm)
    simp [splitOnChar, hx, ih hxs]

/-- Writing a key absent from an object appends the pair. -/
theorem objSet_of_fresh (o : JSObj) (k : List Char) (v : JSVal)
    (h : ∀ q ∈ o, q.1 ≠ k) : objSet o k v = o ++ [(k, v)] := by
  have hf : o.find? (fun p => p.1 == k) = none := by
    rw [List.find?_eq_none]
    intro q hq
    simp [h q hq]
  simp [objSet, hf]

/-- Decoding the preset wire form with canonical values yields the expected
four-key object. -/
theorem parse_presetStr (c p n : List Char)
    (hc : canonicalVal c) (hp : canonicalVal p) (hn : canonicalVal n) :
    parseKeyValuePairs (presetStr c p n) =
      [(cs "Type", .str (cs "Preset")), (cs "CameraId", jsCoerce c),
        (cs "PresetId", jsCoerce p), (cs "PresetName", jsCoerce n)] := by
  obtain ⟨-, hcsep, -⟩ := hc
  obtain ⟨-, hpsep, -⟩ := hp
  obtain ⟨-, hnsep, -⟩ := hn
  have hct : '~' ∉ c := fun h => (hcsep '~' h).1 rfl
  have hcc : ':' ∉ c := fun h => (hcsep ':' h).2 rfl
  have hpt : '~' ∉ p := fun h => (hpsep '~' h).1 rfl
  have hpc : ':' ∉ p := fun h => (hpsep ':' h).2 rfl
  have hnt : '~' ∉ n := fun h => (hnsep '~' h).1 rfl
  have hnc : ':' ∉ n := fun h => (hnsep ':' h).2 rfl
  have eshape : presetStr c p n =
      cs "Type:Preset" ++ '~' :: ((cs "CameraId:" ++ c) ++ '~' ::
        ((cs "PresetId:" ++ p) ++ '~' :: (cs "PresetName:" ++ n))) := by
    rw [presetStr,
      (by decide : cs "Type:Preset~CameraId:" = cs "Type:Preset" ++ '~' :: cs "CameraId:"),
      (by decide : cs "~PresetId:" = '~' :: cs "PresetId:"),
      (by decide : cs "~PresetName:" = '~' :: cs "PresetName:")]
    simp [List.append_assoc]
  have hsplit : splitOnChar '~' (presetStr c p n) =
      [cs "Type:Preset", cs "CameraId:" ++ c, cs "PresetId:" ++ p, cs "PresetName:" ++ n] := by
    rw [eshape,
      splitOnChar_append '~' (cs "Type:Preset") _ (by decide),
      splitOnChar_append '~' (cs "CameraId:" ++ c) _
        (not_mem_append_chars _ _ _ (by decide) hct),
      splitOnChar_append '~' (cs "PresetId:" ++ p) _
        (not_mem_append_chars _ _ _ (by decide) hpt),
      splitOnChar_of_not_mem '~' (cs "PresetName:" ++ n)
        (not_mem_append_chars _ _ _ (by decide) hnt)]
  have hregex : regexTest (presetStr c p n) = true := by
    rw [regexTest, hsplit]
    simp [(by decide : regexTestSeg (cs "Type:Preset") = true)]
  have s1 : splitOnChar ':' (cs "Type:Preset") = [cs "Type", cs "Preset"] := by decide
  have s2 : splitOnChar ':' (cs "CameraId:" ++ c) = [cs "CameraId", c] := by
    rw [(by decide : cs "CameraId:" = cs "CameraId" ++ [':']), List.append_assoc,
      List.singleton_append,
      splitOnChar_append ':' (cs "CameraId") c (by decide),
      splitOnChar_of_not_mem ':' c hcc]
  have s3 : splitOnChar ':' (cs "PresetId:" ++ p) = [cs "PresetId", p] := by
    rw [(by decide : cs "PresetId:" = cs "PresetId" ++ [':']), List.append_assoc,
      List.singleton_append,
      splitOnChar_append ':' (cs "PresetId") p (by decide),
      splitOnChar_of_not_mem ':' p hpc]
  have s4 : splitOnChar ':' (cs "PresetName:" ++ n) = [cs "PresetName", n] := by
    rw [(by decide : cs "PresetName:" = cs "PresetName" ++ [':']), List.append_assoc,
      List.singleton_append,
      splitOnChar_append ':' (cs "PresetName") n (by decide),
      splitOnChar_of_not_mem ':' n hnc]
  have f2 : objSet [(cs "Type", jsCoerce (cs "Preset"))] (cs "CameraId") (jsCoerce c) =
      [(cs "Type", jsCoerce (cs "Preset")), (cs "CameraId", jsCoerce c)] := by
    rw [objSet_of_fresh _ _ _ (by
      intro q hq
      simp only [List.mem_singleton] at hq
      subst hq
      decide)]
    rfl
  have f3 : objSet [(cs "Type", jsCoerce (cs "Preset")), (cs "CameraId", jsCoerce c)]
      (cs "PresetId") (jsCoerce p) =
      [(cs "Type", jsCoerce (cs "Preset")), (cs "CameraId", jsCoerce c),
        (cs "PresetId", jsCoerce p)] := by
    rw [objSet_of_fresh _ _ _ (by
      intro q hq
      simp only [List.mem_cons, List.mem_singleton] at hq
      rcases hq with rfl | rfl | hq
      · decide
      · exact (by decide : cs "CameraId" ≠ cs "PresetId")
      · cases hq)]
    rfl
  have f4 : objSet [(cs "Type", jsCoerce (cs "Preset")), (cs "CameraId", jsCoerce c),
      (cs "PresetId", jsCoerce p)] (cs "PresetName") (jsCoerce n) =
      [(cs "Type", jsCoerce (cs "Preset")), (cs "CameraId", jsCoerce c),
        (cs "PresetId", jsCoerce p), (cs "PresetName", jsCoerce n)] := by
    rw [objSet_of_fresh _ _ _ (by
      intro q hq
      simp only [List.mem_cons, List.mem_singleton] at hq
      rcases hq with rfl | rfl | rfl | hq
      · decide
      · exact (by decide : cs "CameraId" ≠ cs "PresetName")
      · exact (by decide : cs "PresetId" ≠ cs "PresetName")
      · cases hq)]
    rfl
  rw [parseKeyValuePairs, hregex, hsplit]
  simp only [Bool.not_true, Bool.false_eq_true, if_false, List.foldl_cons, List.foldl_nil,
    s1, s2, s3, s4]
  have o1 : objSet ([] : JSObj) (cs "Type") (jsCoerce (cs "Preset")) =
      [(cs "Type", jsCoerce (cs "Preset"))] := rfl
  have jc : jsCoerce (cs "Preset") = JSVal.str (cs "Preset") := by decide
  rw [o1, f2, f3, f4, jc]

/-- Decoding the tracking wire form with a canonical feature value yields the
expected two-key object. -/
theorem parse_autoStr (f : List Char) (hf : canonicalVal f) :
    parseKeyValuePairs (autoStr f) =
      [(cs "Type", .str (cs "Automatic")), (cs "Feature", jsCoerce f)] := by
  obtain ⟨-, hfsep, -⟩ := hf
  have hft : '~' ∉ f := fun h => (hfsep '~' h).1 rfl
  have hfc : ':' ∉ f := fun h => (hfsep ':' h).2 rfl
  have eshape : autoStr f = cs "Type:Automatic" ++ '~' :: (cs "Feature:" ++ f) := by
    rw [autoStr,
      (by decide : cs "Type:Automatic~Feature:" = cs "Type:Automatic" ++ '~' :: cs "Feature:")]
    simp [List.append_assoc]
  have hsplit : splitOnChar '~' (autoStr f) =
      [cs "Type:Automatic", cs "Feature:" ++ f] := by
    rw [eshape,
      splitOnChar_append '~' (cs "Type:Automatic") _ (by decide),
      splitOnChar_of_not_mem '~' (cs "Feature:" ++ f)
        (not_mem_append_chars _ _ _ (by decide) hft)]
  have hregex : regexTest (autoStr f) = true := by
    rw [regexTest, hsplit]
    simp [(by decide : regexTestSeg (cs "Type:Automatic") = true)]
  have s1 : splitOnChar ':' (cs "Type:Automatic") = [cs "Type", cs "Automatic"] := by decide
  have s2 : splitOnChar ':' (cs "Feature:" ++ f) = [cs "Feature", f] := by
    rw [(by decide : cs "Feature:" = cs "Feature" ++ [':']), List.append_assoc,
      List.singleton_append,
      splitOnChar_append ':' (cs "Feature") f (by decide),
      splitOnChar_of_not_mem ':' f hfc]
  have f2 : objSet [(cs "Type", jsCoerce (cs "Automatic"))] (cs "Feature") (jsCoerce f) =
      [(cs "Type", jsCoerce (cs "Automatic")), (cs "Feature", jsCoerce f)] := by
    rw [objSet_of_fresh _ _ _ (by
      intro q hq
      simp only [List.mem_singleton] at hq
      subst hq
      decide)]
    rfl
  rw [parseKeyValuePairs, hregex, hsplit]
  simp only [Bool.not_true, Bool.false_eq_true, if_false, List.foldl_cons, List.foldl_nil,
    s1, s2]
  have o1 : objSet ([] : JSObj) (cs "Type") (jsCoerce (cs "Automatic")) =
      [(cs "Type", jsCoerce (cs "Automatic"))] := rfl
  have jc : jsCoerce (cs "Automatic") = JSVal.str (cs "Automatic") := by decide
  rw [o1, f2, jc]

